import Mathlib

/-!
Shallow embedding of the subscription orchestration service
(`packages/vendure-plugin-stripe-subscription/src/api-v2/stripe-subscription.service.ts`).

Pure data is modelled as Lean structures; the service methods are modelled as
functions from an explicit environment (the results of the framework / provider
calls they make) to a pair of an `Except` result (normal return vs thrown error)
and a list of performed side effects, in the order the source performs them.
JavaScript truthiness of optional fields is modelled explicitly where the source
relies on it.
-/

namespace StripeSub

/-- A configured argument of a payment-method handler (name/value pair). -/
structure HandlerArg where
  name : String
  value : String
deriving Repr, DecidableEq

/-- A channel payment method: its code, enabled flag, the code of its configured
handler, and the handler's configured arguments. -/
structure PaymentMethod where
  code : String
  enabled : Bool
  handlerCode : String
  handlerArgs : List HandlerArg
deriving Repr, DecidableEq

/-- Modelled from the spec: the stripe-subscription payment handler itself is not
among the given sources; only its `code` is used by the service (compared against
`pm.handler.code` and quoted in error messages as stripe-subscription). -/
def stripeSubscriptionHandlerCode : String := "stripe-subscription"

/-- The provider client, scoped to the credentials it was constructed with
(`new StripeClient(webhookSecret, apiKey, ...)`). -/
structure StripeClient where
  webhookSecret : String
  apiKey : String
deriving Repr, DecidableEq

/-- The resolved provider context: the unique payment method plus a client. -/
structure StripeContext where
  paymentMethod : PaymentMethod
  stripeClient : StripeClient
deriving Repr, DecidableEq

/-- Thrown errors: `UserInputError` vs a plain `Error`. -/
inductive ServiceError where
  | userInput (message : String)
  | plain (message : String)
deriving Repr, DecidableEq

/-- Whether an `Except` result is a thrown error of any kind. -/
def isError {α : Type} : Except ServiceError α → Bool
  | .error _ => true
  | .ok _ => false

/-- Whether an `Except` result is specifically a thrown `UserInputError`. -/
def isUserInputError {α : Type} : Except ServiceError α → Bool
  | .error (.userInput _) => true
  | _ => false

/-- JavaScript truthiness check for an optional string: `undefined` and the
empty string are falsy (the source tests `!apiKey || !webhookSecret`). -/
def falsyStr : Option String → Bool
  | none => true
  | some s => s == ""

/-- `paymentMethod.handler.args.find((arg) => arg.name === n)?.value`. -/
def findArgValue (args : List HandlerArg) (argName : String) : Option String :=
  (args.find? (fun a => a.name == argName)).map (·.value)

/-- The enabled payment methods of the channel whose handler is the
stripe-subscription handler: `findAll` with `enabled eq true`, then the filter
`pm.handler.code === stripeSubscriptionHandler.code`. -/
def enabledStripeMethods (methods : List PaymentMethod) : List PaymentMethod :=
  (methods.filter (·.enabled)).filter
    (fun pm => pm.handlerCode == stripeSubscriptionHandlerCode)

/-- `getStripeContext`: requires exactly one enabled stripe-subscription payment
method in the channel, then extracts `apiKey` and `webhookSecret` from its
configured arguments (both must be truthy) and builds the client. -/
def getStripeContext (methods : List PaymentMethod) : Except ServiceError StripeContext :=
  let stripePaymentMethods := enabledStripeMethods methods
  if stripePaymentMethods.length > 1 then
    .error (.userInput
      "Multiple payment methods found with handler stripe-subscription, there should only be 1 per channel!")
  else
    match stripePaymentMethods.head? with
    | none =>
        .error (.userInput "No enabled payment method found with handler stripe-subscription")
    | some paymentMethod =>
        let apiKey := findArgValue paymentMethod.handlerArgs "apiKey"
        let webhookSecret := findArgValue paymentMethod.handlerArgs "webhookSecret"
        if falsyStr apiKey || falsyStr webhookSecret then
          .error (.plain
            ("Payment method " ++ paymentMethod.code ++ " has no api key or webhook secret configured"))
        else
          .ok { paymentMethod := paymentMethod,
                stripeClient := { webhookSecret := webhookSecret.getD "",
                                  apiKey := apiKey.getD "" } }

/-! ### Orders, order lines and customers (the fields the service reads) -/

/-- Product-variant data: the `subscriptionSchedule` custom-field relation
(`some` when a schedule object is attached; an attached object is truthy). -/
structure ProductVariant where
  subscriptionSchedule : Option Nat
deriving Repr, DecidableEq

/-- A customer, as read by `createIntent`. -/
structure Customer where
  id : Nat
  emailAddress : String
deriving Repr, DecidableEq

/-- An order line with its subscription custom fields: the correlation hash and
the stored provider subscription identifiers (absent vs present-but-empty is
distinguished, as JavaScript distinguishes `undefined` from `[]`). -/
structure OrderLine where
  id : Nat
  subscriptionHash : Option String
  subscriptionIds : Option (List String)
  productVariant : ProductVariant
deriving Repr, DecidableEq

/-- An order with the fields the service reads (relations modelled as already
hydrated). -/
structure Order where
  id : Nat
  code : String
  state : String
  totalWithTax : Int
  currencyCode : String
  lines : List OrderLine
  customer : Option Customer
  shippingLines : List String
deriving Repr, DecidableEq

/-! ### Side effects performed by the service -/

/-- The tagged union of job payloads (`JobData`). -/
inductive JobAction where
  | createSubscriptionsForOrder (orderCode stripeCustomerId stripePaymentMethodId : String)
  | cancelSubscriptionsForOrderline (orderLineId : Nat)
deriving Repr, DecidableEq

/-- An update of an order line's custom fields through the repository. -/
inductive FieldUpdate where
  | setSubscriptionHash (hash : String)
  | setSubscriptionIds (subscriptionIds : List String)
deriving Repr, DecidableEq

/-- The observable side effects of the service methods, in source order.
`logHistory` is `logHistoryEntry` (audit entry with `valid = !error`);
`enqueueJob` is `jobQueue.add` with its optional `retries` setting;
`stripeCancelAtPeriodEnd` is `stripeClient.subscriptions.update(id,
cancel_at_period_end: true)`; the rest map one-to-one to the framework calls. -/
inductive Effect where
  | logHistory (orderId : Nat) (message : String) (hasError : Bool) (subscriptionId : Option String)
  | enqueueJob (action : JobAction) (retries : Option Nat)
  | stripeCancelAtPeriodEnd (subscriptionId : String)
  | updateOrderLine (orderLineId : Nat) (update : FieldUpdate)
  | transitionToState (orderId : Nat) (toState : String)
  | addPaymentToOrder (orderId : Nat) (methodCode : String)
  | addSurchargeToOrder (orderId : Nat) (description : String) (listPrice : Int)
  | getOrCreateStripeCustomer (customerId : Nat)
  | updateCustomer (customerId : Nat)
  | createPaymentIntent (stripeCustomerId : String) (amount : Int) (offSession : Bool)
deriving Repr, DecidableEq

/-- Audit entries recording a failure (`logHistoryEntry` called with an error). -/
def isFailureAudit : Effect → Bool
  | .logHistory _ _ hasError _ => hasError
  | _ => false

/-- Audit entries recording a success (`logHistoryEntry` called without error). -/
def isSuccessAudit : Effect → Bool
  | .logHistory _ _ hasError _ => !hasError
  | _ => false

/-- Any audit entry. -/
def isAuditEffect : Effect → Bool
  | .logHistory _ _ _ _ => true
  | _ => false

/-- Order state transitions (`orderService.transitionToState`). -/
def isTransitionEffect : Effect → Bool
  | .transitionToState _ _ => true
  | _ => false

/-- Payment settlements (`orderService.addPaymentToOrder`). -/
def isAddPaymentEffect : Effect → Bool
  | .addPaymentToOrder _ _ => true
  | _ => false

/-- Surcharge additions (`orderService.addSurchargeToOrder`). -/
def isSurchargeEffect : Effect → Bool
  | .addSurchargeToOrder _ _ _ => true
  | _ => false

/-- The correlation hash written by an order-line update effect, if any. -/
def assignedHash : Effect → Option String
  | .updateOrderLine _ (.setSubscriptionHash h) => some h
  | _ => none

/-- All correlation hashes written in a trace. -/
def assignedHashes (trace : List Effect) : List String :=
  trace.filterMap assignedHash

/-! ### `cancelSubscriptionForOrderLine` -/

/-- The per-identifier cancellation loop: for each identifier, call the provider
(`cancelOk` models whether that call resolves or rejects); on success write a
success audit entry, on failure write a failure audit entry and continue. -/
def cancelLoop (cancelOk : String → Bool) (orderId : Nat) : List String → List Effect
  | [] => []
  | subscriptionId :: rest =>
      (if cancelOk subscriptionId then
        [Effect.stripeCancelAtPeriodEnd subscriptionId,
         Effect.logHistory orderId ("Cancelled subscription " ++ subscriptionId) false (some subscriptionId)]
      else
        [Effect.stripeCancelAtPeriodEnd subscriptionId,
         Effect.logHistory orderId ("Failed to cancel " ++ subscriptionId) true (some subscriptionId)])
      ++ cancelLoop cancelOk orderId rest

/-- `cancelSubscriptionForOrderLine`: loads the order owning the line
(`findOneByOrderLineId`, passed in as the lookup result), throws when absent;
returns as a no-op when the line's `subscriptionIds` is falsy or empty
(`!line?.customFields.subscriptionIds?.length`); otherwise resolves the provider
context and runs the cancellation loop. -/
def cancelSubscriptionForOrderLine (methods : List PaymentMethod)
    (findOneByOrderLineId : Option Order) (cancelOk : String → Bool)
    (orderLineId : Nat) : Except ServiceError Unit × List Effect :=
  match findOneByOrderLineId with
  | none => (.error (.plain ("Order for OrderLine " ++ toString orderLineId ++ " not found")), [])
  | some order =>
      let lineSubscriptionIds :=
        ((order.lines.find? (fun l => l.id == orderLineId)).bind (·.subscriptionIds)).getD []
      if lineSubscriptionIds.isEmpty then
        (.ok (), [])
      else
        match getStripeContext methods with
        | .error e => (.error e, [])
        | .ok _stripeContext => (.ok (), cancelLoop cancelOk order.id lineSubscriptionIds)

/-! ### `handlePaymentIntentSucceeded` -/

/-- The payment-intent webhook payload fields the service reads
(`object.customer` may be absent). -/
structure StripePaymentIntent where
  id : String
  customer : Option String
  payment_method : String
  metadataAmount : Int
deriving Repr, DecidableEq

/-- Environment of `handlePaymentIntentSucceeded`: the channel's payment methods
and whether the state transition and the payment settlement succeed. -/
structure WebhookEnv where
  methods : List PaymentMethod
  transitionOk : Bool
  addPaymentOk : Bool
deriving Repr, DecidableEq

/-- `handlePaymentIntentSucceeded`: resolves the provider context; aborts (after
an audit entry) when the payload has no customer identifier; enqueues the
create-subscriptions job with `retries: 0` (enqueue failures are caught and only
logged); transitions the order to ArrangingPayment when not already there
(throwing when rejected); then settles payment (throwing when rejected). -/
def handlePaymentIntentSucceeded (env : WebhookEnv) (object : StripePaymentIntent)
    (order : Order) : Except ServiceError Unit × List Effect :=
  match getStripeContext env.methods with
  | .error e => (.error e, [])
  | .ok stripeContext =>
      let paymentMethodCode := stripeContext.paymentMethod.code
      match object.customer with
      | none =>
          (.error (.plain ("No customer found in webhook data for order " ++ order.code)),
           [Effect.logHistory order.id "" true none])
      | some stripeCustomerId =>
          let enqueueTrace : List Effect :=
            [Effect.enqueueJob
              (.createSubscriptionsForOrder order.code stripeCustomerId object.payment_method)
              (some 0)]
          let transitionTrace : List Effect :=
            if order.state == "ArrangingPayment" then []
            else [Effect.transitionToState order.id "ArrangingPayment"]
          if order.state != "ArrangingPayment" && !env.transitionOk then
            (.error (.plain ("Error transitioning order " ++ order.code ++ " to ArrangingPayment")),
             enqueueTrace ++ transitionTrace)
          else
            let settleTrace :=
              enqueueTrace ++ transitionTrace ++ [Effect.addPaymentToOrder order.id paymentMethodCode]
            if env.addPaymentOk then (.ok (), settleTrace)
            else (.error (.plain ("Error adding payment to order " ++ order.code)), settleTrace)

/-! ### The create-subscriptions job (`createSubscriptions` and its queue wrapper) -/

/-- `createSubscriptions`: loads the order by code (`findOneByCode`, passed in as
a lookup function), throwing when absent. The body of the inner try block is an
unfinished stub in the source (explicit FIXME markers, all statements commented
out), so it performs no operations and cannot throw, leaving the inner
log-audit-and-rethrow catch unreachable. -/
def createSubscriptions (findOneByCode : String → Option Order)
    (orderCode : String) : Except ServiceError Unit × List Effect :=
  match findOneByCode orderCode with
  | none => (.error (.plain ("Cannot find order with code " ++ orderCode)), [])
  | some _order => (.ok (), [])

/-- The `createSubscriptionsForOrder` branch of the job-queue `process` handler:
loads the order by code, runs `createSubscriptions`, and on a thrown error
writes a failure audit entry only when the order was found (`if (order)`),
then rethrows to the queue. -/
def processCreateSubscriptionsJob (findOneByCode : String → Option Order)
    (orderCode : String) : Except ServiceError Unit × List Effect :=
  let order := findOneByCode orderCode
  match createSubscriptions findOneByCode orderCode with
  | (.ok u, trace) => (.ok u, trace)
  | (.error e, trace) =>
      match order with
      | some o => (.error e, trace ++ [Effect.logHistory o.id "Failed to create subscription" true none])
      | none => (.error e, trace)

/-! ### The order-line-created event handler -/

/-- The order-line event types the handler can observe. -/
inductive OrderLineEventType where
  | created
  | updated
  | deleted
deriving Repr, DecidableEq

/-- An order-line event: its type and its order line. -/
structure OrderLineEvt where
  evType : OrderLineEventType
  line : OrderLine
deriving Repr, DecidableEq

/-- Modelled contract of `crypto.randomUUID` (external library): every call
returns a fresh non-empty identifier; modelled as an injective supply of
non-empty strings indexed by the number of calls made so far. -/
def randomUUID (n : Nat) : String :=
  String.mk (List.replicate (n + 1) 'u')

/-- The `OrderLineEvent` subscriber body: on a `created` event whose line the
configured strategy classifies as a subscription, update the line's custom
fields with a fresh correlation hash; otherwise do nothing. -/
def onOrderLineEvent (isSubscription : OrderLine → Bool) (event : OrderLineEvt)
    (uuid : String) : List Effect :=
  if event.evType == .created && isSubscription event.line then
    [Effect.updateOrderLine event.line.id (.setSubscriptionHash uuid)]
  else
    []

/-- A stream of order-line events processed by the subscriber, threading the
`randomUUID` call counter. -/
def processOrderLineEvents (isSubscription : OrderLine → Bool) :
    List OrderLineEvt → Nat → List Effect
  | [], _ => []
  | event :: rest, n =>
      let effects := onOrderLineEvent isSubscription event (randomUUID n)
      effects ++ processOrderLineEvents isSubscription rest (n + effects.length)

/-! ### The stock-movement event handler -/

/-- The stock-movement types of the framework event. -/
inductive StockMovementType where
  | adjustment
  | allocation
  | cancellation
  | release
  | sale
deriving Repr, DecidableEq

/-- A stock movement: its own entity id and the order line it refers to. -/
structure StockMovement where
  id : Nat
  orderLine : OrderLine
deriving Repr, DecidableEq

/-- The `StockMovementEvent` subscriber body: for release/cancellation events
(the `filter` in the pipe), keeps the movements whose order line's
`subscriptionIds` custom field is truthy (note: an empty array is truthy in
JavaScript) and enqueues one cancellation job per kept movement, passing
`line.id` — the movement entity's id — with no retry setting. -/
def onStockMovementEvent (evType : StockMovementType)
    (stockMovements : List StockMovement) : List Effect :=
  if evType == .release || evType == .cancellation then
    (stockMovements.filter (fun m => m.orderLine.subscriptionIds.isSome)).map
      (fun line => Effect.enqueueJob (.cancelSubscriptionsForOrderline line.id) none)
  else
    []

/-! ### `createIntent` -/

/-- One entry of `orderService.getEligiblePaymentMethods`. -/
structure EligibleMethod where
  code : String
  isEligible : Bool
deriving Repr, DecidableEq

/-- The two provider intent kinds (the source currently always reports
`SetupIntent`, marked FIXME). -/
inductive StripeSubscriptionIntentType where
  | SetupIntent
  | PaymentIntent
deriving Repr, DecidableEq

/-- The value returned to the shopper: the intent's client secret and kind. -/
structure StripeSubscriptionIntent where
  clientSecret : String
  intentType : StripeSubscriptionIntentType
deriving Repr, DecidableEq

/-- Environment of `createIntent`: the channel's payment methods, the result of
the eligibility query, the resolved provider customer id, and the
`client_secret` of the provider's intent response (absent models a response
without one). -/
structure IntentEnv where
  methods : List PaymentMethod
  eligibleMethods : List EligibleMethod
  stripeCustomerId : String
  clientSecret : Option String
deriving Repr, DecidableEq

/-- `createIntent` after the surcharge step: validates lines, customer and
shipping; checks the stripe method is among the eligible codes; resolves the
provider customer (creating it when absent), fires the customer-id update
(failures only logged), and requests the provider intent for the order's
tax-inclusive total; throws when the response has no client secret. -/
def createIntentValidated (env : IntentEnv) (order : Order) :
    Except ServiceError StripeSubscriptionIntent × List Effect :=
  if order.lines.isEmpty then
    (.error (.userInput "Cannot create payment intent for empty order"), [])
  else
    match order.customer with
    | none => (.error (.userInput "Cannot create payment intent for order without customer"), [])
    | some customer =>
        if order.shippingLines.isEmpty then
          (.error (.userInput "Cannot create payment intent for order without shippingMethod"), [])
        else
          let eligibleStripeMethodCodes :=
            (env.eligibleMethods.filter (·.isEligible)).map (·.code)
          match getStripeContext env.methods with
          | .error e => (.error e, [])
          | .ok stripeContext =>
              if !(eligibleStripeMethodCodes.contains stripeContext.paymentMethod.code) then
                (.error (.userInput "No eligible payment method found with code stripe-subscription"), [])
              else
                let hasSubscriptionProducts :=
                  order.lines.any (fun l => l.productVariant.subscriptionSchedule.isSome)
                let trace := [Effect.getOrCreateStripeCustomer customer.id,
                              Effect.updateCustomer customer.id,
                              Effect.createPaymentIntent env.stripeCustomerId order.totalWithTax
                                hasSubscriptionProducts]
                match env.clientSecret with
                | none =>
                    (.error (.plain "No client_secret found in SetupIntent response, something went wrong!"),
                     trace)
                | some secret => (.ok ⟨secret, .SetupIntent⟩, trace)

/-- `createIntent`: requires an active order; when its tax-inclusive total is
zero (`!order.totalWithTax`), first adds a 100-unit tax-inclusive verification
surcharge (modelled contract of `addSurchargeToOrder`: the returned order's
total grows by the surcharge), then proceeds with validation and intent
creation on the updated order. -/
def createIntent (env : IntentEnv) (activeOrder : Option Order) :
    Except ServiceError StripeSubscriptionIntent × List Effect :=
  match activeOrder with
  | none => (.error (.userInput "No active order for session"), [])
  | some order0 =>
      if order0.totalWithTax == 0 then
        let order := { order0 with totalWithTax := order0.totalWithTax + 100 }
        let result := createIntentValidated env order
        (result.1, Effect.addSurchargeToOrder order0.id "Verification fee" 100 :: result.2)
      else
        createIntentValidated env order0

/-! ### Concrete inputs used by witnesses -/

/-- A fully configured stripe-subscription payment method, used as a concrete input. -/
def goodStripeMethod : PaymentMethod :=
  { code := "stripe-subscription-method"
    enabled := true
    handlerCode := "stripe-subscription"
    handlerArgs := [⟨"apiKey", "sk_test_123"⟩, ⟨"webhookSecret", "whsec_123"⟩] }

/-- An order line carrying two stored subscription identifiers. -/
def sampleLineAB : OrderLine := ⟨6, none, some ["sub_A", "sub_B"], ⟨none⟩⟩

/-- An order owning `sampleLineAB`. -/
def sampleOrderAB : Order :=
  ⟨20, "ORD3", "PaymentSettled", 1000, "USD", [sampleLineAB], none, []⟩

/-- An order line whose stored subscription-identifier list is present but empty. -/
def noopLine : OrderLine := ⟨5, none, some [], ⟨none⟩⟩

/-- An order owning `noopLine`. -/
def noopOrder : Order := ⟨10, "ORD9", "AddingItems", 500, "USD", [noopLine], none, []⟩

/-- A webhook environment whose channel and downstream calls are all healthy. -/
def webhookEnvOk : WebhookEnv := ⟨[goodStripeMethod], true, true⟩

/-- A payment-intent webhook payload carrying no customer identifier. -/
def intentNoCustomer : StripePaymentIntent := ⟨"pi_1", none, "pm_1", 0⟩

/-- A payment-intent webhook payload carrying a customer identifier. -/
def intentWithCustomer : StripePaymentIntent := ⟨"pi_1", some "cus_1", "pm_1", 0⟩

/-- A plain order not yet in the arranging-payment state. -/
def sampleOrder : Order := ⟨1, "ORD1", "AddingItems", 1000, "USD", [], none, []⟩

/-- A plain order line without subscription custom fields. -/
def subLine : OrderLine := ⟨7, none, none, ⟨none⟩⟩

/-- An intent-creation environment whose channel, eligibility query and provider
response are all healthy. -/
def intentEnvOk : IntentEnv :=
  ⟨[goodStripeMethod], [⟨"stripe-subscription-method", true⟩], "cus_1", some "secret_1"⟩

/-- An active order whose tax-inclusive total is zero but which passes every
validation of `createIntent`. -/
def zeroTotalOrder : Order :=
  ⟨2, "ORD2", "AddingItems", 0, "USD", [subLine], some ⟨3, "tester@example.com"⟩,
   ["standard-shipping"]⟩

/-- An active order whose tax-inclusive total is zero and which has no customer. -/
def zeroNoCustomerOrder : Order :=
  ⟨4, "ORD4", "AddingItems", 0, "USD", [subLine], none, ["standard-shipping"]⟩

/-- A stock movement whose order line stores subscription identifiers. -/
def fullMovement : StockMovement := ⟨8, sampleLineAB⟩

/-- A stock movement whose order line has no subscriptionIds field at all. -/
def bareMovement : StockMovement := ⟨9, subLine⟩

/-- Claim C1 counterexample: a channel with exactly one enabled
stripe-subscription payment method whose handler has no configured arguments:
resolution does not succeed (it throws a plain error, not a user-input error),
refuting the claim that exactly one such method always yields success. -/
theorem getStripeContext_one_method_missing_credentials :
    (enabledStripeMethods [⟨"stripe-sub", true, "stripe-subscription", []⟩]).length = 1 ∧
    getStripeContext [⟨"stripe-sub", true, "stripe-subscription", []⟩] =
      .error (.plain "Payment method stripe-sub has no api key or webhook secret configured") := by
  constructor
  · rfl
  · rfl

/-- Claim C1 (amended): for every channel, when the number of enabled payment
methods using the stripe-subscription handler is not exactly one (zero or more
than one), provider-context resolution fails with a user-input error; when there
is exactly one such method and its `apiKey` and `webhookSecret` arguments are
both configured and non-empty, resolution succeeds and returns a client scoped
to exactly those credentials. -/
theorem getStripeContext_resolution (methods : List PaymentMethod) :
    ((enabledStripeMethods methods).length ≠ 1 →
      isUserInputError (getStripeContext methods) = true) ∧
    (∀ pm apiKey webhookSecret,
      enabledStripeMethods methods = [pm] →
      findArgValue pm.handlerArgs "apiKey" = some apiKey → apiKey ≠ "" →
      findArgValue pm.handlerArgs "webhookSecret" = some webhookSecret → webhookSecret ≠ "" →
      getStripeContext methods = .ok ⟨pm, ⟨webhookSecret, apiKey⟩⟩) := by
  constructor
  · intro hne
    unfold getStripeContext
    rcases hlist : enabledStripeMethods methods with _ | ⟨pm, rest⟩
    · simp [isUserInputError]
    · rcases rest with _ | ⟨pm2, rest2⟩
      · exact absurd (by simp [hlist]) hne
      · simp [isUserInputError]
  · intro pm apiKey webhookSecret hone hapi hapine hweb hwebne
    unfold getStripeContext
    rw [hone]
    simp only [List.length_singleton, gt_iff_lt, List.head?_cons]
    rw [hapi, hweb]
    simp [falsyStr, hapine, hwebne]

/-- Claim C1 witness: concrete inputs exercising both halves of the amended
theorem: the empty channel fails with a user-input error, and a channel with one
fully configured method succeeds with a client carrying its credentials. -/
theorem getStripeContext_resolution_witness :
    isUserInputError (getStripeContext []) = true ∧
    getStripeContext [goodStripeMethod] =
      .ok ⟨goodStripeMethod, ⟨"whsec_123", "sk_test_123"⟩⟩ :=
  ⟨(getStripeContext_resolution []).1 (by decide),
   (getStripeContext_resolution [goodStripeMethod]).2 goodStripeMethod "sk_test_123" "whsec_123"
     (by decide) (by decide) (by decide) (by decide) (by decide)⟩

/-- Claim C9: for an order line of an existing order whose stored
subscription-identifier list is absent or empty, `cancelSubscriptionForOrderLine`
returns normally with an empty effect trace: no provider cancellation call, no
audit entry, and no update of the line's stored fields. -/
theorem cancelSubscriptionForOrderLine_noop (methods : List PaymentMethod)
    (order : Order) (line : OrderLine) (cancelOk : String → Bool)
    (hline : order.lines.find? (fun l => l.id == line.id) = some line)
    (hids : line.subscriptionIds = none ∨ line.subscriptionIds = some []) :
    cancelSubscriptionForOrderLine methods (some order) cancelOk line.id = (.ok (), []) := by
  rcases hids with h | h <;> simp [cancelSubscriptionForOrderLine, hline, h]

/-- Claim C9 witness: a concrete order whose line stores an empty identifier
list; the handler is a pure no-op. -/
theorem cancelSubscriptionForOrderLine_noop_witness :
    cancelSubscriptionForOrderLine [goodStripeMethod] (some noopOrder)
      (fun _ => true) 5 = (.ok (), []) :=
  cancelSubscriptionForOrderLine_noop [goodStripeMethod] noopOrder noopLine
    (fun _ => true) (by decide) (Or.inr rfl)

/-- Claim C3: cancelling an order line whose stored identifiers are `[a, b]`
when the provider call for `a` rejects and the one for `b` resolves: the
handler returns normally (no exception from `a`'s failure), the trace shows `a`
processed before `b`, and it contains exactly one failure audit entry (for `a`)
and exactly one success audit entry (for `b`). -/
theorem cancelSubscriptionForOrderLine_partial_failure
    (methods : List PaymentMethod) (stripeContext : StripeContext)
    (order : Order) (line : OrderLine) (cancelOk : String → Bool) (a b : String)
    (hline : order.lines.find? (fun l => l.id == line.id) = some line)
    (hids : line.subscriptionIds = some [a, b])
    (ha : cancelOk a = false) (hb : cancelOk b = true)
    (hctx : getStripeContext methods = .ok stripeContext) :
    cancelSubscriptionForOrderLine methods (some order) cancelOk line.id =
      (.ok (),
       [Effect.stripeCancelAtPeriodEnd a,
        Effect.logHistory order.id ("Failed to cancel " ++ a) true (some a),
        Effect.stripeCancelAtPeriodEnd b,
        Effect.logHistory order.id ("Cancelled subscription " ++ b) false (some b)]) ∧
    ((cancelSubscriptionForOrderLine methods (some order) cancelOk line.id).2.filter
        isFailureAudit) =
      [Effect.logHistory order.id ("Failed to cancel " ++ a) true (some a)] ∧
    ((cancelSubscriptionForOrderLine methods (some order) cancelOk line.id).2.filter
        isSuccessAudit) =
      [Effect.logHistory order.id ("Cancelled subscription " ++ b) false (some b)] := by
  have hmain : cancelSubscriptionForOrderLine methods (some order) cancelOk line.id =
      (.ok (),
       [Effect.stripeCancelAtPeriodEnd a,
        Effect.logHistory order.id ("Failed to cancel " ++ a) true (some a),
        Effect.stripeCancelAtPeriodEnd b,
        Effect.logHistory order.id ("Cancelled subscription " ++ b) false (some b)]) := by
    simp [cancelSubscriptionForOrderLine, hline, hids, hctx, cancelLoop, ha, hb]
  refine ⟨hmain, ?_, ?_⟩ <;>
    rw [hmain] <;> simp [isFailureAudit, isSuccessAudit]

/-- Claim C3 witness: concrete order, identifiers `sub_A`/`sub_B`, and a provider
that rejects exactly `sub_A`. -/
theorem cancelSubscriptionForOrderLine_partial_failure_witness :
    cancelSubscriptionForOrderLine [goodStripeMethod] (some sampleOrderAB)
      (fun s => s == "sub_B") 6 =
      (.ok (),
       [Effect.stripeCancelAtPeriodEnd "sub_A",
        Effect.logHistory 20 "Failed to cancel sub_A" true (some "sub_A"),
        Effect.stripeCancelAtPeriodEnd "sub_B",
        Effect.logHistory 20 "Cancelled subscription sub_B" false (some "sub_B")]) :=
  (cancelSubscriptionForOrderLine_partial_failure [goodStripeMethod]
    ⟨goodStripeMethod, ⟨"whsec_123", "sk_test_123"⟩⟩ sampleOrderAB sampleLineAB
    (fun s => s == "sub_B") "sub_A" "sub_B"
    (by decide) (by decide) (by decide) (by decide) rfl).1

/-- Claim C2: a payment-intent-succeeded webhook payload carrying no customer
identifier makes `handlePaymentIntentSucceeded` throw, and its effect trace
contains no order state transition and no payment settlement: neither operation
is ever invoked on that execution. -/
theorem handlePaymentIntentSucceeded_no_customer (env : WebhookEnv)
    (object : StripePaymentIntent) (order : Order)
    (h : object.customer = none) :
    isError (handlePaymentIntentSucceeded env object order).1 = true ∧
    ((handlePaymentIntentSucceeded env object order).2.countP isTransitionEffect) = 0 ∧
    ((handlePaymentIntentSucceeded env object order).2.countP isAddPaymentEffect) = 0 := by
  unfold handlePaymentIntentSucceeded
  rcases hctx : getStripeContext env.methods with e | stripeContext
  · simp [isError]
  · simp [h, isError, isTransitionEffect, isAddPaymentEffect]

/-- Claim C2 witness: a concrete webhook payload without a customer identifier. -/
theorem handlePaymentIntentSucceeded_no_customer_witness :
    isError (handlePaymentIntentSucceeded webhookEnvOk intentNoCustomer sampleOrder).1 = true ∧
    ((handlePaymentIntentSucceeded webhookEnvOk intentNoCustomer sampleOrder).2.countP
        isTransitionEffect) = 0 ∧
    ((handlePaymentIntentSucceeded webhookEnvOk intentNoCustomer sampleOrder).2.countP
        isAddPaymentEffect) = 0 :=
  handlePaymentIntentSucceeded_no_customer webhookEnvOk intentNoCustomer sampleOrder rfl

/-- Claim C4: every create-subscriptions job that `handlePaymentIntentSucceeded`
adds to the job queue is configured with a retry count of zero. -/
theorem createSubscriptionsJob_zero_retries (env : WebhookEnv)
    (object : StripePaymentIntent) (order : Order)
    (orderCode stripeCustomerId stripePaymentMethodId : String) (retries : Option Nat)
    (h : Effect.enqueueJob
          (.createSubscriptionsForOrder orderCode stripeCustomerId stripePaymentMethodId)
          retries ∈ (handlePaymentIntentSucceeded env object order).2) :
    retries = some 0 := by
  unfold handlePaymentIntentSucceeded at h
  rcases hctx : getStripeContext env.methods with e | stripeContext <;> rw [hctx] at h
  · simp at h
  · rcases hcust : object.customer with _ | cid <;> rw [hcust] at h
    · simp at h
    · cases hstate : (order.state == "ArrangingPayment") <;>
        cases htr : env.transitionOk <;>
          cases hap : env.addPaymentOk <;>
            simp_all

/-- Claim C4 witness: a concrete successful-webhook run in which the
create-subscriptions job is observed on the queue with retry count zero. -/
theorem createSubscriptionsJob_zero_retries_witness :
    Effect.enqueueJob (.createSubscriptionsForOrder "ORD1" "cus_1" "pm_1") (some 0) ∈
      (handlePaymentIntentSucceeded webhookEnvOk intentWithCustomer sampleOrder).2 ∧
    (some 0 : Option Nat) = some 0 :=
  ⟨by decide,
   createSubscriptionsJob_zero_retries webhookEnvOk intentWithCustomer sampleOrder
     "ORD1" "cus_1" "pm_1" (some 0) (by decide)⟩

/-- Helper: the post-surcharge part of `createIntent` never adds a surcharge. -/
theorem createIntentValidated_no_surcharge (env : IntentEnv) (order : Order) :
    ((createIntentValidated env order).2.countP isSurchargeEffect) = 0 := by
  unfold createIntentValidated
  repeat' split
  all_goals simp [isSurchargeEffect]
  all_goals (split <;> simp)

/-- Claim C5: for an active order whose tax-inclusive total is zero,
`createIntent` adds exactly one surcharge (the verification fee), and it is the
very first effect of the run — in particular it precedes any provider
payment-intent request; for an active order with a non-zero tax-inclusive total,
no surcharge is ever added. -/
theorem createIntent_surcharge (env : IntentEnv) (order0 : Order) :
    (order0.totalWithTax = 0 →
      ((createIntent env (some order0)).2.countP isSurchargeEffect) = 1 ∧
      (createIntent env (some order0)).2.head? =
        some (Effect.addSurchargeToOrder order0.id "Verification fee" 100)) ∧
    (order0.totalWithTax ≠ 0 →
      ((createIntent env (some order0)).2.countP isSurchargeEffect) = 0) := by
  constructor
  · intro h0
    have hz : (order0.totalWithTax == 0) = true := by simp [h0]
    simp only [createIntent, hz, if_true]
    refine ⟨?_, rfl⟩
    simp [List.countP_cons, isSurchargeEffect, createIntentValidated_no_surcharge]
  · intro h0
    have hz : (order0.totalWithTax == 0) = false := by simp [h0]
    simp [createIntent, hz, createIntentValidated_no_surcharge]

/-- Claim C5 witness: a concrete zero-total order receives exactly one leading
verification-fee surcharge, and a concrete non-zero order receives none. -/
theorem createIntent_surcharge_witness :
    (((createIntent intentEnvOk (some zeroTotalOrder)).2.countP isSurchargeEffect) = 1 ∧
      (createIntent intentEnvOk (some zeroTotalOrder)).2.head? =
        some (Effect.addSurchargeToOrder 2 "Verification fee" 100)) ∧
    ((createIntent intentEnvOk (some sampleOrder)).2.countP isSurchargeEffect) = 0 :=
  ⟨(createIntent_surcharge intentEnvOk zeroTotalOrder).1 rfl,
   (createIntent_surcharge intentEnvOk sampleOrder).2 (by decide)⟩

/-- Helper: when an order has no lines, no customer, or no shipping method, the
post-surcharge part of `createIntent` throws a user-input error having performed
no effects. -/
theorem createIntentValidated_userInput_of_invalid (env : IntentEnv) (order : Order)
    (h : order.lines = [] ∨ order.customer = none ∨ order.shippingLines = []) :
    isUserInputError (createIntentValidated env order).1 = true ∧
    (createIntentValidated env order).2 = [] := by
  rcases h with h | h | h
  · simp [createIntentValidated, h, isUserInputError]
  · unfold createIntentValidated
    by_cases hl : order.lines.isEmpty <;> simp [hl, h, isUserInputError]
  · unfold createIntentValidated
    by_cases hl : order.lines.isEmpty
    · simp [hl, isUserInputError]
    · rcases hc : order.customer with _ | c <;> simp [hl, hc, h, isUserInputError]

/-- Claim C10: `createIntent` is not atomic on its error path. For a zero-total
active order that fails a later validation (empty lines, missing customer, or
missing shipping method), the call throws a user-input error, yet its effect
trace is exactly the verification-fee surcharge added beforehand — the failed
call leaves the order mutated, with no compensating removal. -/
theorem createIntent_not_atomic (env : IntentEnv) (order0 : Order)
    (h0 : order0.totalWithTax = 0)
    (hfail : order0.lines = [] ∨ order0.customer = none ∨ order0.shippingLines = []) :
    isUserInputError (createIntent env (some order0)).1 = true ∧
    (createIntent env (some order0)).2 =
      [Effect.addSurchargeToOrder order0.id "Verification fee" 100] := by
  have hz : (order0.totalWithTax == 0) = true := by simp [h0]
  have hv := createIntentValidated_userInput_of_invalid env
    { order0 with totalWithTax := order0.totalWithTax + 100 } (by simpa using hfail)
  simp only [createIntent, hz, if_true]
  exact ⟨hv.1, by rw [hv.2]⟩

/-- Claim C10 witness: a concrete zero-total order without a customer: the call
throws a user-input error and the trace holds exactly the surcharge. -/
theorem createIntent_not_atomic_witness :
    isUserInputError (createIntent intentEnvOk (some zeroNoCustomerOrder)).1 = true ∧
    (createIntent intentEnvOk (some zeroNoCustomerOrder)).2 =
      [Effect.addSurchargeToOrder 4 "Verification fee" 100] :=
  createIntent_not_atomic intentEnvOk zeroNoCustomerOrder rfl (Or.inr (Or.inl rfl))

/-- Helper: the modelled identifier supply never yields the empty string. -/
theorem randomUUID_ne_empty (n : Nat) : randomUUID n ≠ "" := by
  intro h
  have h2 : (randomUUID n).data = ("" : String).data := by rw [h]
  simp [randomUUID] at h2

/-- Helper: the modelled identifier supply is injective (freshness). -/
theorem randomUUID_inj {m n : Nat} (h : randomUUID m = randomUUID n) : m = n := by
  have h2 : (randomUUID m).data = (randomUUID n).data := by rw [h]
  simp [randomUUID] at h2
  omega

/-- Helper: the hashes of concatenated traces are the concatenated hashes. -/
theorem assignedHashes_append (a b : List Effect) :
    assignedHashes (a ++ b) = assignedHashes a ++ assignedHashes b := by
  simp [assignedHashes]

/-- Helper: unfolding one step of the event-stream processor. -/
theorem processOrderLineEvents_cons (isSubscription : OrderLine → Bool)
    (ev : OrderLineEvt) (rest : List OrderLineEvt) (n : Nat) :
    processOrderLineEvents isSubscription (ev :: rest) n =
      onOrderLineEvent isSubscription ev (randomUUID n) ++
        processOrderLineEvents isSubscription rest
          (n + (onOrderLineEvent isSubscription ev (randomUUID n)).length) := rfl

/-- Helper: every hash assigned while processing an event stream starting at
supply index `n` comes from a supply index at or beyond `n`. -/
theorem mem_assignedHashes_process (isSubscription : OrderLine → Bool) :
    ∀ (events : List OrderLineEvt) (n : Nat) (h : String),
      h ∈ assignedHashes (processOrderLineEvents isSubscription events n) →
      ∃ k, n ≤ k ∧ h = randomUUID k := by
  intro events
  induction events with
  | nil =>
      intro n h hmem
      simp [processOrderLineEvents, assignedHashes] at hmem
  | cons ev rest ih =>
      intro n h hmem
      rw [processOrderLineEvents_cons, assignedHashes_append] at hmem
      rcases List.mem_append.mp hmem with hmem | hmem
      · by_cases hc : (ev.evType == .created && isSubscription ev.line) = true
        · rw [show onOrderLineEvent isSubscription ev (randomUUID n) =
              [Effect.updateOrderLine ev.line.id (.setSubscriptionHash (randomUUID n))]
            from by simp [onOrderLineEvent, hc]] at hmem
          simp [assignedHashes, assignedHash] at hmem
          exact ⟨n, Nat.le_refl n, hmem⟩
        · rw [show onOrderLineEvent isSubscription ev (randomUUID n) = []
            from by simp [onOrderLineEvent, hc]] at hmem
          simp [assignedHashes] at hmem
      · obtain ⟨k, hk, he⟩ :=
          ih (n + (onOrderLineEvent isSubscription ev (randomUUID n)).length) h hmem
        exact ⟨k, by omega, he⟩

/-- Helper: the hashes assigned while processing an event stream are pairwise
distinct. -/
theorem nodup_assignedHashes_process (isSubscription : OrderLine → Bool) :
    ∀ (events : List OrderLineEvt) (n : Nat),
      (assignedHashes (processOrderLineEvents isSubscription events n)).Nodup := by
  intro events
  induction events with
  | nil =>
      intro n
      simp [processOrderLineEvents, assignedHashes]
  | cons ev rest ih =>
      intro n
      rw [processOrderLineEvents_cons, assignedHashes_append]
      by_cases hc : (ev.evType == .created && isSubscription ev.line) = true
      · rw [show onOrderLineEvent isSubscription ev (randomUUID n) =
            [Effect.updateOrderLine ev.line.id (.setSubscriptionHash (randomUUID n))]
          from by simp [onOrderLineEvent, hc]]
        rw [show assignedHashes
              [Effect.updateOrderLine ev.line.id (.setSubscriptionHash (randomUUID n))] =
            [randomUUID n] from by simp [assignedHashes, assignedHash]]
        rw [List.singleton_append, List.nodup_cons]
        constructor
        · intro hmem
          obtain ⟨k, hk, he⟩ := mem_assignedHashes_process isSubscription rest _ _ hmem
          simp at hk
          exact absurd (randomUUID_inj he) (by omega)
        · exact ih _
      · rw [show onOrderLineEvent isSubscription ev (randomUUID n) = []
          from by simp [onOrderLineEvent, hc]]
        simpa [assignedHashes] using ih n

/-- Claim C6: an order-line creation event whose line the configured strategy
classifies as a subscription makes the handler persist exactly one custom-field
update carrying the freshly generated correlation hash; a non-subscription line,
or an event of any other type, yields no update; and across any processed event
stream the assigned hashes are non-empty and pairwise distinct. -/
theorem orderLineCreated_hash_assignment (isSubscription : OrderLine → Bool)
    (events : List OrderLineEvt) (n : Nat) :
    (∀ event uuid, event.evType = .created → isSubscription event.line = true →
      onOrderLineEvent isSubscription event uuid =
        [Effect.updateOrderLine event.line.id (.setSubscriptionHash uuid)]) ∧
    (∀ event uuid, event.evType ≠ .created ∨ isSubscription event.line = false →
      onOrderLineEvent isSubscription event uuid = []) ∧
    (∀ h, h ∈ assignedHashes (processOrderLineEvents isSubscription events n) → h ≠ "") ∧
    (assignedHashes (processOrderLineEvents isSubscription events n)).Nodup := by
  refine ⟨?_, ?_, ?_, nodup_assignedHashes_process isSubscription events n⟩
  · intro ev uuid h1 h2
    simp [onOrderLineEvent, h1, h2]
  · intro ev uuid h12
    rcases h12 with h | h <;> simp [onOrderLineEvent, h]
  · intro h hmem
    obtain ⟨k, _, he⟩ := mem_assignedHashes_process isSubscription events n h hmem
    rw [he]
    exact randomUUID_ne_empty k

/-- Claim C6 witness: a concrete created subscription line receives exactly the
fresh-hash update, a concrete non-subscription line receives none, and the
concretely assigned hash is non-empty. -/
theorem orderLineCreated_hash_assignment_witness :
    onOrderLineEvent (fun _ => true) ⟨.created, subLine⟩ (randomUUID 0) =
      [Effect.updateOrderLine 7 (.setSubscriptionHash (randomUUID 0))] ∧
    onOrderLineEvent (fun _ => false) ⟨.created, subLine⟩ (randomUUID 0) = [] ∧
    randomUUID 0 ≠ "" :=
  ⟨(orderLineCreated_hash_assignment (fun _ => true) [⟨.created, subLine⟩] 0).1
      ⟨.created, subLine⟩ (randomUUID 0) rfl rfl,
   (orderLineCreated_hash_assignment (fun _ => false) [] 0).2.1
      ⟨.created, subLine⟩ (randomUUID 0) (Or.inr rfl),
   (orderLineCreated_hash_assignment (fun _ => true) [⟨.created, subLine⟩] 0).2.2.1
      (randomUUID 0)
      (by simp [processOrderLineEvents, onOrderLineEvent, assignedHashes, assignedHash])⟩

/-- Claim C7 counterexample: a stock-release movement whose order line stores an
empty subscription-identifier list — a line with no stored subscription
identifiers — still gets a cancellation job enqueued, because the source tests
the field with JavaScript truthiness and an empty array is truthy. -/
theorem onStockMovementEvent_empty_ids_enqueues :
    onStockMovementEvent .release [⟨7, noopLine⟩] =
      [Effect.enqueueJob (.cancelSubscriptionsForOrderline 7) none] ∧
    onStockMovementEvent .release [⟨7, noopLine⟩] ≠ [] := by
  constructor
  · rfl
  · simp [onStockMovementEvent, noopLine]

/-- Claim C7 (amended): for stock-movement events of kind release or
cancellation, exactly one cancellation job is enqueued per movement whose order
line has the subscriptionIds custom field present — including present but empty
— and every enqueued job stems from such a movement; a movement whose order line
lacks the field contributes no job. -/
theorem onStockMovementEvent_enqueue (evType : StockMovementType)
    (stockMovements : List StockMovement)
    (hty : evType = .release ∨ evType = .cancellation) :
    (onStockMovementEvent evType stockMovements).length =
      stockMovements.countP (fun m => m.orderLine.subscriptionIds.isSome) ∧
    (∀ i, Effect.enqueueJob (.cancelSubscriptionsForOrderline i) none ∈
        onStockMovementEvent evType stockMovements ↔
      ∃ m ∈ stockMovements, m.id = i ∧ m.orderLine.subscriptionIds.isSome = true) := by
  have hcond : (evType == .release || evType == .cancellation) = true := by
    rcases hty with h | h <;> simp [h]
  have hred : onStockMovementEvent evType stockMovements =
      (stockMovements.filter (fun m => m.orderLine.subscriptionIds.isSome)).map
        (fun line => Effect.enqueueJob (.cancelSubscriptionsForOrderline line.id) none) := by
    simp [onStockMovementEvent, hcond]
  rw [hred]
  constructor
  · simp [List.countP_eq_length_filter]
  · intro i
    simp only [List.mem_map, List.mem_filter]
    constructor
    · rintro ⟨m, ⟨hm, hsome⟩, heq⟩
      simp only [Effect.enqueueJob.injEq,
        JobAction.cancelSubscriptionsForOrderline.injEq, and_true] at heq
      exact ⟨m, hm, heq, hsome⟩
    · rintro ⟨m, hm, hid, hsome⟩
      exact ⟨m, ⟨hm, hsome⟩, by rw [hid]⟩

/-- Claim C7 witness: of two concrete movements — one whose line stores
identifiers, one whose line lacks the field — exactly one job is enqueued and it
stems from the movement with the field present. -/
theorem onStockMovementEvent_enqueue_witness :
    (onStockMovementEvent .cancellation [fullMovement, bareMovement]).length =
      ([fullMovement, bareMovement].countP (fun m => m.orderLine.subscriptionIds.isSome)) ∧
    (Effect.enqueueJob (.cancelSubscriptionsForOrderline 8) none ∈
        onStockMovementEvent .cancellation [fullMovement, bareMovement] ↔
      ∃ m ∈ [fullMovement, bareMovement], m.id = 8 ∧
        m.orderLine.subscriptionIds.isSome = true) :=
  ⟨(onStockMovementEvent_enqueue .cancellation [fullMovement, bareMovement] (Or.inr rfl)).1,
   (onStockMovementEvent_enqueue .cancellation [fullMovement, bareMovement] (Or.inr rfl)).2 8⟩

/-- Claim C8 counterexample: when the order lookup finds nothing — the only
failure point of the current (stubbed) creation-job body — the job throws and
the error is rethrown to the queue, but no audit history entry is written: the
effect trace is empty, refuting the claim that an audit entry accompanies every
failure point. -/
theorem processCreateSubscriptionsJob_missing_order :
    processCreateSubscriptionsJob (fun _ => none) "SC123" =
      (.error (.plain "Cannot find order with code SC123"), []) := rfl

/-- Claim C8 (amended): whenever the create-subscriptions job body throws, the
whole job is aborted and the error is rethrown to the job queue; an audit entry
is written only when the order was loaded — and since the only failure point of
the current stubbed body is the order lookup itself, a throwing run rethrows the
lookup error with an empty effect trace (no audit entry). -/
theorem processCreateSubscriptionsJob_rethrow (findOneByCode : String → Option Order)
    (orderCode : String) :
    (isError (processCreateSubscriptionsJob findOneByCode orderCode).1 = true ↔
      findOneByCode orderCode = none) ∧
    (findOneByCode orderCode = none →
      processCreateSubscriptionsJob findOneByCode orderCode =
        (.error (.plain ("Cannot find order with code " ++ orderCode)), [])) := by
  rcases hfind : findOneByCode orderCode with _ | o <;>
    simp [processCreateSubscriptionsJob, createSubscriptions, hfind, isError]

/-- Claim C8 witness: a concrete lookup that finds no order: the job is observed
failing with the rethrown lookup error and an empty trace. -/
theorem processCreateSubscriptionsJob_rethrow_witness :
    (isError (processCreateSubscriptionsJob (fun _ => none) "SC999").1 = true ↔
      (fun _ => (none : Option Order)) "SC999" = none) ∧
    processCreateSubscriptionsJob (fun _ => none) "SC999" =
      (.error (.plain "Cannot find order with code SC999"), []) :=
  ⟨(processCreateSubscriptionsJob_rethrow (fun _ => none) "SC999").1,
   (processCreateSubscriptionsJob_rethrow (fun _ => none) "SC999").2 rfl⟩

end StripeSub
